import Mathlib

/-!
Shallow embedding of the teuthida CPU model (src/teuthida/dunder-init.py),
an Amaranth HDL design: an ALU, a register file, a boot ROM, an instruction
decoder, and a five-phase multi-cycle sequencer (class Cpu).

Embedding conventions, following Amaranth register-transfer semantics:
- a signal driven in the `comb` domain takes its reset value (0) in every
  branch where it is not assigned;
- a signal driven in the `sync` domain is state: it keeps its value unless
  assigned, and assignments commit at the clock edge (one `step`);
- assigning a wide value to a narrow signal truncates (mod 2^width);
- `Signal(E)` for an `IntEnum` `E` is as wide as needed for the member
  values only: `Funct3`, `Funct7` and `AluOp` each have a single member 0,
  so those signals are 1 bit wide and assignments to them keep only the
  lowest bit;
- indexing an `Array` with an out-of-range index resolves to the last
  element (the fallback used when lowering an `ArrayProxy`).

The register file's backing array is `Array([Signal(xlen)] * 30)`: a Python
list holding thirty references to one and the same `Signal`.  The model
therefore carries a single cell value, and the array is thirty copies of it.
-/

namespace Teuthida

def DEFAULT_XLEN : Nat := 64

/-- Word width of the default configuration, 2^64. -/
def W64 : Nat := 2 ^ 64

namespace AluOp

/-- AluOp.ADD = 0; the only member, so Signal(AluOp) is 1 bit wide. -/
def ADD : Nat := 0

end AluOp

/-- Alu.elaborate: `out` is combinational; it is `in1 + in2` (truncated to
the 64-bit `out` signal) when `en` is set and `op` is `AluOp.ADD`, and the
reset value 0 in every other case (no Default in the Switch, no Else). -/
def aluOut (xlen : Nat) (en : Bool) (op in1 in2 : Nat) : Nat :=
  if en ∧ op = AluOp.ADD then (in1 + in2) % 2 ^ xlen else 0

/-- RegisterFile.regs is `Array([Signal(xlen)] * 30)`: thirty references to
a single signal, so the whole array is determined by one cell value. -/
def rfRegsArray (cell : Nat) : List Nat := List.replicate 30 cell

/-- RegisterFile write path (lines 65-68): the single cell is driven in the
comb domain, so it equals `wrval` while `wren` is set and `0 < wrsel < 31`,
and the reset value 0 otherwise.  (`regs[wrsel - 1]` is the shared cell for
every in-range `wrsel`.) -/
def rfCellValue (wren : Bool) (wrsel wrval : Nat) : Nat :=
  if wren ∧ 0 < wrsel ∧ wrsel < 31 then wrval else 0

/-- RegisterFile read port (both out1 and out2 use the same Switch): sel 0
returns 0; any other sel returns `regs[sel - 1]`.  Every entry of the array
is the one shared cell, and the out-of-range index 30 (sel = 31) resolves
to the last element, which is again the shared cell; `min (sel - 1) 29`
makes that resolution explicit. -/
def rfOut (cell : Nat) (sel : Nat) : Nat :=
  if sel = 0 then 0 else (rfRegsArray cell).getD (min (sel - 1) 29) 0

/-- BootRom data: the four resident instruction words. -/
def bootRomData : List Nat :=
  [0x00000533, 0x04200593, 0x00b50533, 0xffdff06f]

/-- BootRom.elaborate: `out = mem[addr >> 2]` when `addr >> 2 < depth`,
reset value 0 otherwise (comb default). -/
def bootRomOut (addr : Nat) : Nat :=
  if addr / 4 < bootRomData.length then bootRomData.getD (addr / 4) 0 else 0

namespace Opcode

/-- Opcode.REG = 0b0110011. -/
def REG : Nat := 0x33

/-- Opcode.IMM = 0b0010011. -/
def IMM : Nat := 0x13

/-- Opcode.JAL = 0b1101111. -/
def JAL : Nat := 0x6f

/-- Opcode.JARL = 0b1100111 (declared in the source, never decoded). -/
def JARL : Nat := 0x67

end Opcode

/-- Instruction field inst[:7]. -/
def opcodeOf (inst : Nat) : Nat := inst % 2 ^ 7

/-- Instruction field inst[7:12]. -/
def rdOf (inst : Nat) : Nat := inst / 2 ^ 7 % 2 ^ 5

/-- Instruction field inst[15:20]. -/
def rs1Of (inst : Nat) : Nat := inst / 2 ^ 15 % 2 ^ 5

/-- Instruction field inst[20:25]. -/
def rs2Of (inst : Nat) : Nat := inst / 2 ^ 20 % 2 ^ 5

/-- Value of the decoder's `funct3` signal: `funct3.eq(inst[12:15])` where
`funct3 = Signal(Funct3)` is 1 bit wide (Funct3 has the single member
IMM_ADDI = 0), so only inst[12] survives the assignment. -/
def funct3Of (inst : Nat) : Nat := inst / 2 ^ 12 % 2

/-- Value of the decoder's `funct7` signal: `funct7.eq(inst[25:32])` where
`funct7 = Signal(Funct7)` is 1 bit wide (Funct7 has the single member
REG_ADD = 0), so only inst[25] survives the assignment. -/
def funct7Of (inst : Nat) : Nat := inst / 2 ^ 25 % 2

/-- Instruction field inst[20:32], the 12-bit I-type immediate. -/
def iImmOf (inst : Nat) : Nat := inst / 2 ^ 20 % 2 ^ 12

/-- InstructionDecoder `illegal` output: set in the Default of the funct7
Switch under REG, the Default of the funct3 Switch under IMM, and the
Default of the opcode Switch; reset value 0 everywhere else. -/
def decIllegal (inst : Nat) : Bool :=
  if opcodeOf inst = Opcode.REG then
    if funct7Of inst = 0 then false else true
  else if opcodeOf inst = Opcode.IMM then
    if funct3Of inst = 0 then false else true
  else if opcodeOf inst = Opcode.JAL then false
  else true

/-- InstructionDecoder `alu_en` output: set for REG/funct7-match and
IMM/funct3-match, and for JAL when rd > 0; reset value 0 otherwise. -/
def decAluEn (inst : Nat) : Bool :=
  if opcodeOf inst = Opcode.REG then
    if funct7Of inst = 0 then true else false
  else if opcodeOf inst = Opcode.IMM then
    if funct3Of inst = 0 then true else false
  else if opcodeOf inst = Opcode.JAL then
    if 0 < rdOf inst then true else false
  else false

/-- InstructionDecoder `regwrite` output: set unconditionally in the REG
and IMM cases, and for JAL when rd > 0. -/
def decRegwrite (inst : Nat) : Bool :=
  if opcodeOf inst = Opcode.REG then true
  else if opcodeOf inst = Opcode.IMM then true
  else if opcodeOf inst = Opcode.JAL then
    if 0 < rdOf inst then true else false
  else false

/-- Offset assembled by the JAL case of the decoder into the signed(21)
`pc_offset` signal: bit 0 is never assigned (reset 0), bits [1:11] get
`inst[21:31] - 2` truncated to 10 bits, bit 11 gets inst[20], bits [12:20]
get inst[12:20], bit 20 gets inst[31].  The value of a signed(21) signal
whose top bit is b is (low bits) - b * 2^21. -/
def jalOffset (inst : Nat) : Int :=
  let b21_30 : Int := inst / 2 ^ 21 % 2 ^ 10
  let b20 : Int := inst / 2 ^ 20 % 2
  let b12_19 : Int := inst / 2 ^ 12 % 2 ^ 8
  let b31 : Int := inst / 2 ^ 31 % 2
  ((b21_30 - 2) % 2 ^ 10) * 2 + b20 * 2 ^ 11 + b12_19 * 2 ^ 12 + b31 * 2 ^ 20
    - b31 * 2 ^ 21

/-- InstructionDecoder `pc_offset` output: assembled only in the JAL case,
reset value 0 for every other opcode. -/
def decPcOffset (inst : Nat) : Int :=
  if opcodeOf inst = Opcode.JAL then jalOffset inst else 0

/-- Decoder comb routing: `regs.sel1.eq(rs1)` is driven unconditionally. -/
def decSel1 (inst : Nat) : Nat := rs1Of inst

/-- Decoder comb routing: `regs.sel2.eq(rs2)` is driven only in the
REG/funct7-match case; reset value 0 otherwise. -/
def decSel2 (inst : Nat) : Nat :=
  if opcodeOf inst = Opcode.REG ∧ funct7Of inst = 0 then rs2Of inst else 0

/-- Decoder comb routing of `alu.in1`: `self.alu.in1.eq(self.regs.out1)` is
driven unconditionally, and overridden by `self.regs.pc` in the JAL case
when rd > 0 (the later assignment wins).  `cell` is the current value of
the shared register cell feeding the read port. -/
def decAluIn1 (cell pc inst : Nat) : Nat :=
  if opcodeOf inst = Opcode.JAL ∧ 0 < rdOf inst then pc
  else rfOut cell (decSel1 inst)

/-- Decoder comb routing of `alu.in2`: `regs.out2` in the REG/funct7-match
case, the zero-extended 12-bit immediate in the IMM/funct3-match case, the
constant 0 in the JAL rd > 0 case, and the reset value 0 otherwise. -/
def decAluIn2 (cell inst : Nat) : Nat :=
  if opcodeOf inst = Opcode.REG ∧ funct7Of inst = 0 then
    rfOut cell (decSel2 inst)
  else if opcodeOf inst = Opcode.IMM ∧ funct3Of inst = 0 then iImmOf inst
  else 0

/-- Offset described by the specification sentence for claim C4: the signed
21-bit value assembled as bit20 = inst[31], bits19:12 = inst[12:20],
bit11 = inst[20], bits10:1 = inst[21:31], bit0 = 0, with no correction
applied.  This definition follows the claim's words, for comparison with
`decPcOffset`, which follows the source. -/
def specJalAssembled (inst : Nat) : Int :=
  let b21_30 : Int := inst / 2 ^ 21 % 2 ^ 10
  let b20 : Int := inst / 2 ^ 20 % 2
  let b12_19 : Int := inst / 2 ^ 12 % 2 ^ 8
  let b31 : Int := inst / 2 ^ 31 % 2
  b21_30 * 2 + b20 * 2 ^ 11 + b12_19 * 2 ^ 12 + b31 * 2 ^ 20 - b31 * 2 ^ 21

namespace PipelineStage

/-- PipelineStage.FETCH = 0. -/
def FETCH : Nat := 0

/-- PipelineStage.DECODE = 1. -/
def DECODE : Nat := 1

/-- PipelineStage.MEMACCESS = 2. -/
def MEMACCESS : Nat := 2

/-- PipelineStage.EXECUTE = 3. -/
def EXECUTE : Nat := 3

/-- PipelineStage.WRITEBACK = 4. -/
def WRITEBACK : Nat := 4

end PipelineStage

/-- State of the Cpu: exactly the signals driven in the sync domain.  The
register file contributes only `pc`: its `regs` cell is driven in the comb
domain (line 68 uses m.d.comb), so it holds nothing across clock edges.
`stage` is the value of the 3-bit Signal(PipelineStage), `cycles` of the
64-bit counter, `inst` of the decoder's 32-bit instruction latch, `aluEn`
of the ALU enable latched by the Cpu. -/
structure CpuState where
  inst : Nat
  pc : Nat
  aluEn : Bool
  stage : Nat
  halt : Bool
  cycles : Nat
  deriving DecidableEq, Repr

/-- PC update committed by the EXECUTE phase:
`regs.pc.eq(regs.pc + Mux(dec.pc_offset != 0, dec.pc_offset - 4, 0))`,
truncated to the 64-bit pc signal. -/
def execPc (pc inst : Nat) : Nat :=
  Int.toNat ((pc +
    (if decPcOffset inst ≠ 0 then decPcOffset inst - 4 else 0)) % (W64 : Int))

/-- One clock edge of Cpu.elaborate.  Everything is wrapped in
`If(~self.halt)`, so a halted state commits nothing.  Otherwise the Switch
on `stage` contributes the per-phase sync assignments, and the trailing
If/Else advances `stage` (wrapping in the 3-bit signal) and counts
retirements. -/
def step (s : CpuState) : CpuState :=
  if s.halt then s
  else
    match s.stage with
    | 0 =>
      { s with inst := bootRomOut s.pc, pc := (s.pc + 4) % W64, stage := 1 }
    | 1 => { s with halt := decIllegal s.inst, stage := 2 }
    | 2 => { s with stage := 3 }
    | 3 =>
      { s with aluEn := decAluEn s.inst, pc := execPc s.pc s.inst, stage := 4 }
    | 4 =>
      { s with aluEn := false, stage := 0, cycles := (s.cycles + 1) % W64 }
    | n + 5 => { s with stage := (n + 6) % 8 }

/-- Reset state: every signal at its reset value. -/
def reset : CpuState :=
  { inst := 0, pc := 0, aluEn := false, stage := 0, halt := false,
    cycles := 0 }

/-- State after n clock edges from reset. -/
def cpuAfter (n : Nat) : CpuState := step^[n] reset

/-- Cpu comb drive of `regs.wren`: 0 in FETCH (explicitly) and by reset
default everywhere except WRITEBACK with `dec.regwrite` set; everything is
under `If(~halt)`. -/
def cpuWren (s : CpuState) : Bool :=
  if s.halt = false ∧ s.stage = PipelineStage.WRITEBACK ∧
      decRegwrite s.inst then true
  else false

/-- Cpu comb drive of `regs.wrsel`: `dec.rd` under the same condition as
`wren`, reset value 0 otherwise. -/
def cpuWrsel (s : CpuState) : Nat :=
  if cpuWren s then rdOf s.inst else 0

/-- Cpu comb drive of `regs.wrval`: `alu.out` under the same condition as
`wren`, reset value 0 otherwise.  `alu.op` is 0 in every decoder case that
assigns it (AluOp.ADD) as well as by reset default.  `c` is an assumed
value of the shared register cell feeding the decoder's operand routing. -/
def cpuWrval (s : CpuState) (c : Nat) : Nat :=
  if cpuWren s then
    aluOut DEFAULT_XLEN s.aluEn AluOp.ADD (decAluIn1 c s.pc s.inst)
      (decAluIn2 c s.inst)
  else 0

/-- One pass of the combinational equations for the shared register cell,
given an assumed cell value `c` on the read ports. -/
def cellStep (s : CpuState) (c : Nat) : Nat :=
  rfCellValue (cpuWren s) (cpuWrsel s) (cpuWrval s c)

/-- Settled combinational value of the shared register cell in state `s`:
the comb equations are iterated from the signal's reset value 0.  In every
state reached by the resident program one extra pass already repeats
(`cellStep s (cellStep s 0) = cellStep s 0`), so this is the fixed point
the simulator settles on. -/
def cpuCell (s : CpuState) : Nat := cellStep s (cellStep s 0)

/-- Projection of a CpuState onto the components that determine halting:
(stage, pc, inst, aluEn, halt).  `cycles` is omitted: it feeds only
itself. -/
abbrev Obs := Nat × Nat × Nat × Bool × Bool

def obs (s : CpuState) : Obs := (s.stage, s.pc, s.inst, s.aluEn, s.halt)

/-- Action of `step` on the projected components; `obs_step` proves it
agrees with `step`. -/
def obsStep : Obs → Obs
  | (stage, pc, inst, aluEn, halt) =>
    if halt then (stage, pc, inst, aluEn, halt)
    else
      match stage with
      | 0 => (1, (pc + 4) % W64, bootRomOut pc, aluEn, halt)
      | 1 => (2, pc, inst, aluEn, decIllegal inst)
      | 2 => (3, pc, inst, aluEn, halt)
      | 3 => (4, execPc pc inst, inst, decAluEn inst, halt)
      | 4 => (0, pc, inst, false, halt)
      | n + 5 => ((n + 6) % 8, pc, inst, aluEn, halt)

/-- All (stage, pc, inst, aluEn, halt) combinations reachable from reset
while running the resident boot program; the orbit is periodic from the
sixth entry on (the JAL lands at byte address 4). -/
def reachSet : List Obs :=
  [(0, 0, 0x00000000, false, false),
   (1, 4, 0x00000533, false, false),
   (2, 4, 0x00000533, false, false),
   (3, 4, 0x00000533, false, false),
   (4, 4, 0x00000533, true, false),
   (0, 4, 0x00000533, false, false),
   (1, 8, 0x04200593, false, false),
   (2, 8, 0x04200593, false, false),
   (3, 8, 0x04200593, false, false),
   (4, 8, 0x04200593, true, false),
   (0, 8, 0x04200593, false, false),
   (1, 12, 0x00b50533, false, false),
   (2, 12, 0x00b50533, false, false),
   (3, 12, 0x00b50533, false, false),
   (4, 12, 0x00b50533, true, false),
   (0, 12, 0x00b50533, false, false),
   (1, 16, 0xffdff06f, false, false),
   (2, 16, 0xffdff06f, false, false),
   (3, 16, 0xffdff06f, false, false),
   (4, 4, 0xffdff06f, false, false),
   (0, 4, 0xffdff06f, false, false)]

/-- Sample state sitting in the EXECUTE phase of the resident JAL. -/
def sampleExec : CpuState :=
  { inst := 0xffdff06f, pc := 16, aluEn := false, stage := 3, halt := false,
    cycles := 3 }

/-- Sample halted state with arbitrary nonzero contents. -/
def sampleHalted : CpuState :=
  { inst := 7, pc := 20, aluEn := true, stage := 2, halt := true,
    cycles := 5 }

theorem getD_replicate_of_lt (c i : Nat) (h : i < 30) :
    (List.replicate 30 c).getD i 0 = c := by
  rw [List.getD_eq_getElem?_getD, List.getElem?_replicate, if_pos h]
  rfl

theorem step_halted (s : CpuState) (h : s.halt = true) : step s = s := by
  simp [step, h]

theorem obs_step (s : CpuState) : obs (step s) = obsStep (obs s) := by
  rcases s with ⟨inst, pc, aluEn, stage, halt, cycles⟩
  cases halt
  · rcases stage with _ | _ | _ | _ | _ | n <;> rfl
  · rfl

theorem reach_closed : ∀ t ∈ reachSet, obsStep t ∈ reachSet := by decide

theorem reach_halt_false : ∀ t ∈ reachSet, t.2.2.2.2 = false := by decide

theorem reach_inv (n : Nat) : obs (cpuAfter n) ∈ reachSet := by
  induction n with
  | zero => decide
  | succ n ih =>
    have h : cpuAfter (n + 1) = step (cpuAfter n) :=
      Function.iterate_succ_apply' step n reset
    rw [h, obs_step]
    exact reach_closed _ ih

theorem cpu_never_halts (n : Nat) : (cpuAfter n).halt = false := by
  simpa [obs] using reach_halt_false _ (reach_inv n)

/-- Claim C1 (code bug).  Running the resident boot program from reset for
15 clock edges (three full five-phase instructions) leaves `cycles = 3` and
the sequencer back in FETCH, as the claim demands — but register a0 reads
0, not 0x42: the register file's thirty cells are one comb-driven signal,
so the 0x42 exists in that shared cell only transiently during the ADDI's
WRITEBACK phase (after 9 edges) and is gone at the next edge.  Stepping
forever keeps `halted` false (the JAL loops), which this theorem also
records. -/
theorem c1_boot_program_run :
    (cpuAfter 15).cycles = 3 ∧ (cpuAfter 15).stage = PipelineStage.FETCH ∧
    cpuCell (cpuAfter 15) = 0 ∧ cpuCell (cpuAfter 9) = 0x42 ∧
    ∀ n, (cpuAfter n).halt = false :=
  ⟨by decide, by decide, by decide, by decide, cpu_never_halts⟩

/-- Claim C2 (code bug).  The decoder does NOT assert `illegal` for every
REG instruction with funct7 other than 0000000, nor for every IMM
instruction with funct3 other than 000: the `funct7`/`funct3` signals are
declared over single-member enums, hence 1 bit wide, so the comparison
sees only inst[25]/inst[12].  Witness instructions: 0x40000033 (REG with
funct7 = 0100000, the RISC-V SUB encoding) and 0x00252513 (IMM with
funct3 = 010, the SLTI encoding) both decode with `illegal = false`. -/
theorem c2_truncated_funct_check :
    decIllegal 0x40000033 = false ∧ opcodeOf 0x40000033 = Opcode.REG ∧
    0x40000033 / 2 ^ 25 % 2 ^ 7 = 0x20 ∧
    decIllegal 0x00252513 = false ∧ opcodeOf 0x00252513 = Opcode.IMM ∧
    0x00252513 / 2 ^ 12 % 2 ^ 3 = 2 := by decide

/-- Claim C3 (confirmed).  All thirty register cells alias one signal:
the backing array is thirty copies of a single cell, so a write to any
selector in 1..=30 is read back through every selector in 1..=30, and all
thirty array entries are always equal. -/
theorem c3_regs_alias (wrsel v sel : Nat) (h1 : 1 ≤ wrsel) (h2 : wrsel ≤ 30)
    (h3 : 1 ≤ sel) (h4 : sel ≤ 30) :
    rfOut (rfCellValue true wrsel v) sel = v ∧
    ∀ c i j : Nat, i < 30 → j < 30 →
      (rfRegsArray c).getD i 0 = (rfRegsArray c).getD j 0 := by
  constructor
  · have hcell : rfCellValue true wrsel v = v := by
      unfold rfCellValue
      rw [if_pos ⟨rfl, by omega, by omega⟩]
    rw [hcell]
    unfold rfOut rfRegsArray
    rw [if_neg (by omega)]
    exact getD_replicate_of_lt v _ (by omega)
  · intro c i j hi hj
    unfold rfRegsArray
    rw [getD_replicate_of_lt c i hi, getD_replicate_of_lt c j hj]

/-- Witness for claim C3: writing 99 through selector 7 is read back
through selector 23. -/
theorem c3_regs_alias_witness : rfOut (rfCellValue true 7 99) 23 = 99 :=
  (c3_regs_alias 7 99 23 (by decide) (by decide) (by decide) (by decide)).1

/-- Counterexample for claim C4: for the resident JAL instruction
0xffdff06f (jal x0, -4), `pc_offset` is -8, while the claim's "assembled
offset minus 2" would be -4 - 2 = -6: the source subtracts 2 from the
UNSHIFTED field inst[21:31], which is worth 4 in the assembled offset. -/
theorem c4_minus2_counterexample :
    decPcOffset 0xffdff06f ≠ specJalAssembled 0xffdff06f - 2 := by decide

/-- Claim C4 (corrected).  For a JAL instruction, `pc_offset` equals the
assembled signed 21-bit offset minus 4 (the subtraction of 2 happens on
the unshifted inst[21:31] field), provided inst[21:31] is at least 2 so
that the 10-bit field subtraction does not wrap. -/
theorem c4_jal_offset_amended (inst : Nat) (hop : opcodeOf inst = Opcode.JAL)
    (hb : 2 ≤ inst / 2 ^ 21 % 2 ^ 10) :
    decPcOffset inst = specJalAssembled inst - 4 := by
  have hlt : inst / 2 ^ 21 % 2 ^ 10 < 2 ^ 10 := Nat.mod_lt _ (by norm_num)
  simp only [decPcOffset, jalOffset, specJalAssembled, hop, if_true, if_pos]
  omega

/-- Witness for claim C4's amended statement at the resident JAL. -/
theorem c4_jal_offset_amended_witness :
    decPcOffset 0xffdff06f = specJalAssembled 0xffdff06f - 4 :=
  c4_jal_offset_amended 0xffdff06f (by decide) (by decide)

/-- Counterexample for claim C5: a read with sel = 31 does not return 0.
With a write of 5 through selector 1 driving the shared cell, the read
port at sel = 31 takes the Default branch, the out-of-range index 30
resolves to the last array element — the same shared cell — and returns
5. -/
theorem c5_read31_counterexample :
    rfOut (rfCellValue true 1 5) 31 ≠ 0 := by decide

/-- Claim C5 (corrected).  The read ports are total over the 5-bit
selector domain: sel = 0 returns 0, and every sel in 1..=31 — including
31 — returns the shared register cell.  sel = 31 behaves like the stored
selectors, not like sel = 0. -/
theorem c5_read_total (cell sel : Nat) (_h : sel ≤ 31) :
    rfOut cell sel = if sel = 0 then 0 else cell := by
  unfold rfOut rfRegsArray
  by_cases h0 : sel = 0
  · rw [if_pos h0, if_pos h0]
  · rw [if_neg h0, if_neg h0]
    exact getD_replicate_of_lt cell _ (by omega)

/-- Witness for claim C5's amended statement at sel = 31. -/
theorem c5_read_total_witness :
    rfOut 7 31 = if (31 : Nat) = 0 then 0 else 7 :=
  c5_read_total 7 31 (by decide)

/-- Claim C6 (confirmed).  In the EXECUTE phase of a non-halted state, a
step latches `alu_en` from the decoder, and the committed PC is
pc + (pc_offset - 4) (mod 2^64) when the decoder's branch offset is
non-zero, and unchanged when it is zero. -/
theorem c6_execute_step (s : CpuState) (hh : s.halt = false)
    (hs : s.stage = PipelineStage.EXECUTE) (hpc : s.pc < W64) :
    (step s).aluEn = decAluEn s.inst ∧
    (step s).pc = if decPcOffset s.inst ≠ 0
      then Int.toNat ((s.pc + (decPcOffset s.inst - 4)) % (W64 : Int))
      else s.pc := by
  rcases s with ⟨inst, pc, aluEn, stage, halt, cycles⟩
  simp only [PipelineStage.EXECUTE] at hs
  simp only at hh hpc ⊢
  subst hs
  subst hh
  refine ⟨rfl, ?_⟩
  show execPc pc inst = _
  unfold execPc
  by_cases hoff : decPcOffset inst ≠ 0
  · rw [if_pos hoff, if_pos hoff]
  · rw [if_neg hoff, if_neg hoff]
    have hW : (W64 : Int) = 18446744073709551616 := by norm_num [W64]
    have hpc64 : pc < 18446744073709551616 := by
      simpa [W64] using hpc
    rw [hW]
    omega

/-- Witness for claim C6 at the EXECUTE phase of the resident JAL: the
latched `alu_en` is false (rd = x0) and the PC commits 16 - 12 = 4. -/
theorem c6_execute_step_witness :
    (step sampleExec).aluEn = false ∧ (step sampleExec).pc = 4 := by
  have h := c6_execute_step sampleExec rfl rfl (by decide)
  exact ⟨h.1.trans (by decide), h.2.trans (by decide)⟩

/-- Claim C7 (confirmed).  A halted state is frozen: any number of steps
leaves the whole state — pc, stage, halt latch, cycles (and there is no
other stored state) — exactly as it was. -/
theorem c7_halted_frozen (s : CpuState) (n : Nat) (h : s.halt = true) :
    step^[n] s = s := by
  induction n with
  | zero => rfl
  | succ n ih => rw [Function.iterate_succ_apply', ih, step_halted s h]

/-- Witness for claim C7: three steps of a concrete halted state. -/
theorem c7_halted_frozen_witness : step^[3] sampleHalted = sampleHalted :=
  c7_halted_frozen sampleHalted 3 rfl

/-- Claim C8 (confirmed).  A write with selector 0 or 31 is silently
ignored: the cell carries the same value as with the write disabled (the
undriven reset value); a write with selector in 1..=30 and enable set
drives the written value into the cell, and every other combination
leaves the cell at the reset value 0. -/
theorem c8_write_guard (sel v : Nat) (en : Bool) :
    ((sel = 0 ∨ sel = 31) → rfCellValue true sel v = rfCellValue false sel v) ∧
    (1 ≤ sel → sel ≤ 30 → rfCellValue true sel v = v) ∧
    (¬(en = true ∧ 1 ≤ sel ∧ sel ≤ 30) → rfCellValue en sel v = 0) := by
  refine ⟨fun h => ?_, fun h1 h2 => ?_, fun h => ?_⟩
  · rcases h with h | h <;> subst h <;> rfl
  · unfold rfCellValue
    rw [if_pos ⟨rfl, by omega, by omega⟩]
  · unfold rfCellValue
    rw [if_neg]
    intro hc
    exact h ⟨hc.1, by omega, by omega⟩

/-- Witness for claim C8: a write through selector 0 equals the disabled
write, selector 7 stores, and a disabled write leaves the reset value. -/
theorem c8_write_guard_witness :
    rfCellValue true 0 9 = rfCellValue false 0 9 ∧
    rfCellValue true 7 9 = 9 ∧ rfCellValue false 7 9 = 0 :=
  ⟨(c8_write_guard 0 9 false).1 (Or.inl rfl),
   (c8_write_guard 7 9 false).2.1 (by decide) (by decide),
   (c8_write_guard 7 9 false).2.2 (by decide)⟩

/-- Claim C9 (confirmed).  With enable set, ADD is commutative at every
word width and wraps modulo the width; at the default 64-bit width,
add(2^64 - 1, 1) = 0. -/
theorem c9_add_commutes_wraps :
    (∀ xlen a b : Nat,
      aluOut xlen true AluOp.ADD a b = aluOut xlen true AluOp.ADD b a) ∧
    aluOut DEFAULT_XLEN true AluOp.ADD (2 ^ 64 - 1) 1 = 0 := by
  constructor
  · intro xlen a b
    simp [aluOut, Nat.add_comm]
  · decide

/-- Claim C10 (confirmed).  The ALU output is total and deterministic:
whenever enable is false, or the opcode differs from ADD, `out` is the
comb reset value 0, for every pair of operands. -/
theorem c10_alu_default_zero (xlen op in1 in2 : Nat) (en : Bool)
    (h : en = false ∨ op ≠ AluOp.ADD) :
    aluOut xlen en op in1 in2 = 0 := by
  unfold aluOut
  rcases h with h | h
  · subst h
    simp
  · rw [if_neg]
    intro hc
    exact h hc.2

/-- Witness for claim C10: disabled ALU and a non-ADD opcode both give 0. -/
theorem c10_alu_default_zero_witness :
    aluOut DEFAULT_XLEN false AluOp.ADD 3 4 = 0 ∧
    aluOut DEFAULT_XLEN true 1 3 4 = 0 :=
  ⟨c10_alu_default_zero DEFAULT_XLEN AluOp.ADD 3 4 false (Or.inl rfl),
   c10_alu_default_zero DEFAULT_XLEN 1 3 4 true (Or.inr (by decide))⟩

end Teuthida
